import Mathlib

/-
Verification of the eGFR calculator engine (src/src/App.js).

The numeric model: serum creatinine, age and height values are embedded as
rationals where the source only does field arithmetic, and as reals where the
source calls Math.pow with non-integer exponents (the adult CKD-EPI 2021
formula, modelled with Real.rpow).  JavaScript's Math.round rounds half
toward positive infinity, which is Int.floor (x + 1/2); this is jsRound
below.  Raw form fields are modelled by the observable outcome of the pair
(string truthiness, parseFloat): empty, malformed (non-empty text that
parses to NaN), or a parsed number.
-/

namespace EGFR

/-- JavaScript Math.round on a finite value: floor (x + 1/2), halves toward
positive infinity. -/
def jsRound {α : Type} [LinearOrderedField α] [FloorRing α] (x : α) : ℤ :=
  ⌊x + 1/2⌋

/-- Rounding to the nearest integer with halves away from zero, the rounding
mode the specification names for the eGFR output. -/
def roundHalfAwayFromZero {α : Type} [LinearOrderedField α] [FloorRing α] (x : α) : ℤ :=
  if 0 ≤ x then ⌊x + 1/2⌋ else -⌊-x + 1/2⌋

lemma roundHalfAwayFromZero_eq_jsRound {α : Type} [LinearOrderedField α] [FloorRing α]
    (x : α) (hx : 0 ≤ x) : roundHalfAwayFromZero x = jsRound x := by
  simp [roundHalfAwayFromZero, jsRound, hx]

/-! ### Constants for formulas (FORMULAS in App.js) -/

structure SexConstants where
  kappa : ℝ
  alpha : ℝ
  sexFactor : ℝ

/-- FORMULAS.CKD_EPI_2021.constants.female: kappa 0.7, alpha -0.241, sexFactor 1.012. -/
def ckdEpiFemale : SexConstants := ⟨0.7, -0.241, 1.012⟩

/-- FORMULAS.CKD_EPI_2021.constants.male: kappa 0.9, alpha -0.302, sexFactor 1.0. -/
def ckdEpiMale : SexConstants := ⟨0.9, -0.302, 1.0⟩

/-- The ternary `isFemale ? constants.female : constants.male` in calculateCKDEPI2021. -/
def ckdEpiConstants (isFemale : Bool) : SexConstants :=
  if isFemale then ckdEpiFemale else ckdEpiMale

/-- FORMULAS.SCHWARTZ_2009.constant. -/
def SCHWARTZ_2009_constant : ℚ := 0.413

/-! ### Calculation functions -/

/-- calculateCKDEPI2021 (App.js lines 55-66).  The locals ratio, minVal and
maxVal of the source are inlined; Math.pow on positive bases is Real.rpow. -/
noncomputable def calculateCKDEPI2021 (creatinine age : ℝ) (isFemale : Bool) : ℤ :=
  jsRound (142
    * Real.rpow (min (creatinine / (ckdEpiConstants isFemale).kappa) 1)
        (ckdEpiConstants isFemale).alpha
    * Real.rpow (max (creatinine / (ckdEpiConstants isFemale).kappa) 1) (-1.200)
    * Real.rpow 0.9938 age
    * (ckdEpiConstants isFemale).sexFactor)

/-- calculateSchwartz2009 (App.js lines 68-71). -/
def calculateSchwartz2009 (creatinine height : ℚ) : ℤ :=
  jsRound ((SCHWARTZ_2009_constant * height) / creatinine)

/-! ### CKD staging (CKD_STAGES and getCKDStage, App.js lines 23-30 and 74-81) -/

inductive StageCode where
  | G1 | G2 | G3a | G3b | G4 | G5
deriving DecidableEq, Repr

structure StageInfo where
  stage : StageCode
  label : String
  color : String
  risk : String
deriving DecidableEq, Repr

/-- getCKDStage: descending threshold comparisons, first match wins.  The
record fields label, color and risk carry the matched CKD_STAGES entry. -/
def getCKDStage (eGFR : ℤ) : StageInfo :=
  if eGFR ≥ 90 then ⟨StageCode.G1, "Normal or high", "bg-green-500", "Low"⟩
  else if eGFR ≥ 60 then ⟨StageCode.G2, "Mildly decreased", "bg-green-400", "Low"⟩
  else if eGFR ≥ 45 then ⟨StageCode.G3a, "Mild to moderately decreased", "bg-yellow-500", "Moderate"⟩
  else if eGFR ≥ 30 then ⟨StageCode.G3b, "Moderate to severely decreased", "bg-orange-500", "High"⟩
  else if eGFR ≥ 15 then ⟨StageCode.G4, "Severely decreased", "bg-red-500", "Very High"⟩
  else ⟨StageCode.G5, "Kidney failure", "bg-red-700", "Very High"⟩

/-! ### Raw form fields and validators (App.js lines 33-52) -/

/-- A raw text field as the engine observes it: empty string, non-empty text
on which parseFloat yields NaN, or text parsing to a number. -/
inductive RawField where
  | empty
  | malformed
  | num (q : ℚ)
deriving DecidableEq

/-- parseFloat: none stands for NaN (the result on empty and malformed text). -/
def parseField : RawField → Option ℚ
  | RawField.empty => none
  | RawField.malformed => none
  | RawField.num q => some q

/-- JavaScript truthiness of the raw field string: only the empty string is falsy. -/
def fieldTruthy : RawField → Bool
  | RawField.empty => false
  | RawField.malformed => true
  | RawField.num _ => true

/-- validateAge: the isNaN branch shares the message of the lower-bound branch. -/
def validateAge (age : RawField) : Option String :=
  match parseField age with
  | none => some "Age must be ≥ 1 year"
  | some numAge =>
    if numAge < 1 then some "Age must be ≥ 1 year"
    else if numAge > 120 then some "Please verify age > 120 years"
    else none

inductive CreatUnit where
  | mgdL | umolL
deriving DecidableEq

/-- validateCreatinine: the isNaN branch shares the message of the
nonpositive branch; the two upper thresholds are guarded by the unit. -/
def validateCreatinine (value : RawField) (creatUnit : CreatUnit) : Option String :=
  match parseField value with
  | none => some "Creatinine must be > 0"
  | some n =>
    if n ≤ 0 then some "Creatinine must be > 0"
    else if creatUnit = CreatUnit.mgdL ∧ n > 20 then some "Please verify creatinine > 20 mg/dL"
    else if creatUnit = CreatUnit.umolL ∧ n > 1768 then some "Please verify creatinine > 1768 µmol/L"
    else none

/-- validateHeight: isNaN, below 30 and above 250 all yield the one message. -/
def validateHeight (height : RawField) : Option String :=
  match parseField height with
  | none => some "Height must be between 30-250 cm"
  | some n =>
    if n < 30 ∨ n > 250 then some "Height must be between 30-250 cm"
    else none

/-! ### The EGFRCalculator component state and flow (App.js lines 170-247) -/

inductive SexField where
  | unset | male | female
deriving DecidableEq

structure FormData where
  age : RawField
  sex : SexField
  creatinine : RawField
  creatinineUnit : CreatUnit
  height : RawField
deriving DecidableEq

/-- isPediatric: `formData.age && parseFloat(formData.age) < 18`; NaN < 18 is
false, so a malformed age is not pediatric. -/
def isPediatric (f : FormData) : Bool :=
  fieldTruthy f.age &&
    (match parseField f.age with
      | some q => decide (q < 18)
      | none => false)

/-- The errors object the validation effect builds (App.js lines 186-205):
each validator runs only when its field is non-empty, height additionally
only on the pediatric path. -/
structure FormErrors where
  age : Option String
  creatinine : Option String
  height : Option String
deriving DecidableEq

def computeErrors (f : FormData) : FormErrors :=
  ⟨if fieldTruthy f.age then validateAge f.age else none,
   if fieldTruthy f.creatinine then validateCreatinine f.creatinine f.creatinineUnit else none,
   if isPediatric f && fieldTruthy f.height then validateHeight f.height else none⟩

/-- `Object.keys(errors).length === 0` is false exactly when some field holds
an error. -/
def hasErrors (e : FormErrors) : Bool :=
  e.age.isSome || e.creatinine.isSome || e.height.isSome

/-- convertCreatinine (App.js lines 211-216): parseFloat then divide by 88.4
only under µmol/L. -/
def convertCreatinine (value : RawField) (fromUnit : CreatUnit) : Option ℚ :=
  match fromUnit with
  | CreatUnit.umolL => (parseField value).map (fun v => v / 88.4)
  | CreatUnit.mgdL => parseField value

/-- isFormValid (App.js lines 218-224): required fields truthy (height only
when pediatric) and the errors object empty. -/
def isFormValid (f : FormData) : Bool :=
  fieldTruthy f.age && decide (f.sex ≠ SexField.unset) && fieldTruthy f.creatinine &&
    (!isPediatric f || fieldTruthy f.height) && !hasErrors (computeErrors f)

/-- The composed output of a successful calculation: the eGFR integer, the
formula name stored in usedFormula, and the stage ResultsDisplay derives
from the eGFR via getCKDStage. -/
structure CalcResult where
  eGFR : ℤ
  formulaUsed : String
  stage : StageInfo
deriving DecidableEq

/-- calculate (App.js lines 226-247), composed with the stage lookup of
ResultsDisplay.  When isFormValid holds, every parse below succeeds (proved
in the lemmas that follow), so the none fallbacks marked unreachable only
make the function total. -/
noncomputable def calculate (f : FormData) : Option CalcResult :=
  if !isFormValid f then none
  else
    match parseField f.age, convertCreatinine f.creatinine f.creatinineUnit with
    | some age, some creatinine =>
      if 18 ≤ age then
        some ⟨calculateCKDEPI2021 (creatinine : ℝ) (age : ℝ) (decide (f.sex = SexField.female)),
              "CKD-EPI 2021",
              getCKDStage (calculateCKDEPI2021 (creatinine : ℝ) (age : ℝ)
                (decide (f.sex = SexField.female)))⟩
      else
        match parseField f.height with
        | some height =>
          some ⟨calculateSchwartz2009 creatinine height,
                "Bedside Schwartz 2009",
                getCKDStage (calculateSchwartz2009 creatinine height)⟩
        | none => none
    | _, _ => none

/-! ### The second copy of the engine (after the separator, App.js lines
405-883).  Its calculation-relevant functions are transcribed from that copy;
only the color strings of the stage table differ (hex values instead of
Tailwind class names). -/

namespace Copy2

def ckdEpiFemale : SexConstants := ⟨0.7, -0.241, 1.012⟩

def ckdEpiMale : SexConstants := ⟨0.9, -0.302, 1.0⟩

def ckdEpiConstants (isFemale : Bool) : SexConstants :=
  if isFemale then ckdEpiFemale else ckdEpiMale

def SCHWARTZ_2009_constant : ℚ := 0.413

noncomputable def calculateCKDEPI2021 (creatinine age : ℝ) (isFemale : Bool) : ℤ :=
  jsRound (142
    * Real.rpow (min (creatinine / (ckdEpiConstants isFemale).kappa) 1)
        (ckdEpiConstants isFemale).alpha
    * Real.rpow (max (creatinine / (ckdEpiConstants isFemale).kappa) 1) (-1.200)
    * Real.rpow 0.9938 age
    * (ckdEpiConstants isFemale).sexFactor)

def calculateSchwartz2009 (creatinine height : ℚ) : ℤ :=
  jsRound ((SCHWARTZ_2009_constant * height) / creatinine)

/-- getCKDStage of the second copy: same thresholds, labels and risks, hex
color tokens (CKD_STAGES at App.js lines 428-435). -/
def getCKDStage (eGFR : ℤ) : StageInfo :=
  if eGFR ≥ 90 then ⟨StageCode.G1, "Normal or high", "#10b981", "Low"⟩
  else if eGFR ≥ 60 then ⟨StageCode.G2, "Mildly decreased", "#34d399", "Low"⟩
  else if eGFR ≥ 45 then ⟨StageCode.G3a, "Mild to moderately decreased", "#eab308", "Moderate"⟩
  else if eGFR ≥ 30 then ⟨StageCode.G3b, "Moderate to severely decreased", "#f97316", "High"⟩
  else if eGFR ≥ 15 then ⟨StageCode.G4, "Severely decreased", "#ef4444", "Very High"⟩
  else ⟨StageCode.G5, "Kidney failure", "#b91c1c", "Very High"⟩

def validateAge (age : RawField) : Option String :=
  match parseField age with
  | none => some "Age must be ≥ 1 year"
  | some numAge =>
    if numAge < 1 then some "Age must be ≥ 1 year"
    else if numAge > 120 then some "Please verify age > 120 years"
    else none

def validateCreatinine (value : RawField) (creatUnit : CreatUnit) : Option String :=
  match parseField value with
  | none => some "Creatinine must be > 0"
  | some n =>
    if n ≤ 0 then some "Creatinine must be > 0"
    else if creatUnit = CreatUnit.mgdL ∧ n > 20 then some "Please verify creatinine > 20 mg/dL"
    else if creatUnit = CreatUnit.umolL ∧ n > 1768 then some "Please verify creatinine > 1768 µmol/L"
    else none

def validateHeight (height : RawField) : Option String :=
  match parseField height with
  | none => some "Height must be between 30-250 cm"
  | some n =>
    if n < 30 ∨ n > 250 then some "Height must be between 30-250 cm"
    else none

def convertCreatinine (value : RawField) (fromUnit : CreatUnit) : Option ℚ :=
  match fromUnit with
  | CreatUnit.umolL => (parseField value).map (fun v => v / 88.4)
  | CreatUnit.mgdL => parseField value

end Copy2

/-! ### Specification-side definitions, written from the spec's words, to be
compared with the definitions transcribed from the source. -/

/-- The stage band table as the spec states it: code and risk tier per
explicit inclusive range, G5 for everything at or below 14. -/
def classifySpec (e : ℤ) : StageCode × String :=
  if 90 ≤ e then (StageCode.G1, "Low")
  else if 60 ≤ e ∧ e ≤ 89 then (StageCode.G2, "Low")
  else if 45 ≤ e ∧ e ≤ 59 then (StageCode.G3a, "Moderate")
  else if 30 ≤ e ∧ e ≤ 44 then (StageCode.G3b, "High")
  else if 15 ≤ e ∧ e ≤ 29 then (StageCode.G4, "Very High")
  else (StageCode.G5, "Very High")

/-- The adult CKD-EPI 2021 value as the spec states it: the sex-specific
constants written out, and the final rounding half away from zero. -/
noncomputable def specCKDEPI2021 (Cr age : ℝ) (isFemale : Bool) : ℤ :=
  if isFemale then
    roundHalfAwayFromZero (142 * Real.rpow (min (Cr / 0.7) 1) (-0.241)
      * Real.rpow (max (Cr / 0.7) 1) (-1.200) * Real.rpow 0.9938 age * 1.012)
  else
    roundHalfAwayFromZero (142 * Real.rpow (min (Cr / 0.9) 1) (-0.302)
      * Real.rpow (max (Cr / 0.9) 1) (-1.200) * Real.rpow 0.9938 age * 1.0)

/-- The pediatric Schwartz 2009 value as the spec states it. -/
def specSchwartz2009 (Cr height : ℚ) : ℤ :=
  roundHalfAwayFromZero ((0.413 * height) / Cr)

/-! ### What a valid form guarantees -/

lemma valid_parts (f : FormData) (hv : isFormValid f = true) :
    fieldTruthy f.age = true ∧ f.sex ≠ SexField.unset ∧ fieldTruthy f.creatinine = true ∧
    (isPediatric f = true → fieldTruthy f.height = true) ∧
    (computeErrors f).age = none ∧ (computeErrors f).creatinine = none ∧
    (computeErrors f).height = none := by
  simp only [isFormValid, Bool.and_eq_true, decide_eq_true_eq] at hv
  obtain ⟨⟨⟨⟨hage, hsex⟩, hcr⟩, hped⟩, herr⟩ := hv
  have herr' : hasErrors (computeErrors f) = false := by simpa using herr
  have h3 : ((computeErrors f).age = none ∧ (computeErrors f).creatinine = none) ∧
      (computeErrors f).height = none := by
    simpa [hasErrors] using herr'
  refine ⟨hage, hsex, hcr, ?_, h3.1.1, h3.1.2, h3.2⟩
  intro hp
  simp [hp] at hped
  exact hped

lemma age_parses_of_valid (f : FormData) (hv : isFormValid f = true) :
    ∃ a, parseField f.age = some a ∧ 1 ≤ a ∧ a ≤ 120 := by
  obtain ⟨hage, -, -, -, herr, -, -⟩ := valid_parts f hv
  rw [computeErrors] at herr
  simp only [hage, if_true] at herr
  cases hfa : f.age with
  | empty => rw [hfa] at hage; simp [fieldTruthy] at hage
  | malformed => rw [hfa] at herr; simp [validateAge, parseField] at herr
  | num a =>
    rw [hfa] at herr
    simp only [validateAge, parseField] at herr
    split_ifs at herr with h1 h2
    exact ⟨a, rfl, by linarith, by linarith⟩

lemma creatinine_parses_of_valid (f : FormData) (hv : isFormValid f = true) :
    ∃ v, parseField f.creatinine = some v ∧ 0 < v := by
  obtain ⟨-, -, hcr, -, -, herr, -⟩ := valid_parts f hv
  rw [computeErrors] at herr
  simp only [hcr, if_true] at herr
  cases hfc : f.creatinine with
  | empty => rw [hfc] at hcr; simp [fieldTruthy] at hcr
  | malformed => rw [hfc] at herr; simp [validateCreatinine, parseField] at herr
  | num v =>
    rw [hfc] at herr
    simp only [validateCreatinine, parseField] at herr
    split_ifs at herr with h1
    exact ⟨v, rfl, by linarith⟩

lemma height_parses_of_valid (f : FormData) (hv : isFormValid f = true)
    (hp : isPediatric f = true) :
    ∃ h, parseField f.height = some h ∧ 30 ≤ h ∧ h ≤ 250 := by
  obtain ⟨-, -, -, hht, -, -, herr⟩ := valid_parts f hv
  have hht' := hht hp
  rw [computeErrors] at herr
  simp only [hp, hht', Bool.and_self, if_true] at herr
  cases hfh : f.height with
  | empty => rw [hfh] at hht'; simp [fieldTruthy] at hht'
  | malformed => rw [hfh] at herr; simp [validateHeight, parseField] at herr
  | num h =>
    rw [hfh] at herr
    simp only [validateHeight, parseField] at herr
    split_ifs at herr with h1
    push_neg at h1
    exact ⟨h, rfl, h1.1, h1.2⟩

lemma convert_pos_of_valid (f : FormData) (hv : isFormValid f = true) :
    ∃ c, convertCreatinine f.creatinine f.creatinineUnit = some c ∧ 0 < c := by
  obtain ⟨v, hvparse, hvpos⟩ := creatinine_parses_of_valid f hv
  cases hu : f.creatinineUnit with
  | mgdL => exact ⟨v, by simp [convertCreatinine, hvparse], hvpos⟩
  | umolL =>
    refine ⟨v / 88.4, by simp [convertCreatinine, hvparse], ?_⟩
    positivity

lemma age_lt_of_pediatric (f : FormData) (a : ℚ) (ha : parseField f.age = some a)
    (hp : isPediatric f = true) : a < 18 := by
  simp only [isPediatric, ha, Bool.and_eq_true, decide_eq_true_eq] at hp
  exact hp.2

/-- The shape of a successful calculation: the parsed age and converted
creatinine, and per branch the exact record calculate stores. -/
lemma calculate_cases (f : FormData) (hv : isFormValid f = true) :
    ∃ a c, parseField f.age = some a ∧
      convertCreatinine f.creatinine f.creatinineUnit = some c ∧ 0 < c ∧
      ((18 ≤ a ∧ calculate f =
          some ⟨calculateCKDEPI2021 (c : ℝ) (a : ℝ) (decide (f.sex = SexField.female)),
                "CKD-EPI 2021",
                getCKDStage (calculateCKDEPI2021 (c : ℝ) (a : ℝ)
                  (decide (f.sex = SexField.female)))⟩) ∨
        (a < 18 ∧ ∃ ht, parseField f.height = some ht ∧ calculate f =
          some ⟨calculateSchwartz2009 c ht, "Bedside Schwartz 2009",
                getCKDStage (calculateSchwartz2009 c ht)⟩)) := by
  obtain ⟨a, haparse, ha1, ha120⟩ := age_parses_of_valid f hv
  obtain ⟨c, hconv, hcpos⟩ := convert_pos_of_valid f hv
  refine ⟨a, c, haparse, hconv, hcpos, ?_⟩
  by_cases h18 : 18 ≤ a
  · left
    refine ⟨h18, ?_⟩
    simp [calculate, hv, haparse, hconv, h18]
  · right
    have halt : a < 18 := lt_of_not_le h18
    have hped : isPediatric f = true := by
      have hage : fieldTruthy f.age = true := (valid_parts f hv).1
      simp [isPediatric, haparse, hage, halt]
    obtain ⟨ht, hhtparse, -, -⟩ := height_parses_of_valid f hv hped
    refine ⟨halt, ht, hhtparse, ?_⟩
    simp [calculate, hv, haparse, hconv, h18, hhtparse]

lemma ckdepiValue_nonneg (cr x k a sf : ℝ) (hc : 0 < cr) (hk : 0 < k) (hsf : 0 < sf) :
    0 ≤ 142 * Real.rpow (min (cr / k) 1) a * Real.rpow (max (cr / k) 1) (-1.200)
      * Real.rpow 0.9938 x * sf := by
  have h1 : 0 < min (cr / k) 1 := lt_min (div_pos hc hk) one_pos
  have h2 : 0 < max (cr / k) 1 := lt_of_lt_of_le one_pos (le_max_right _ _)
  have e1 := Real.rpow_pos_of_pos h1 a
  have e2 := Real.rpow_pos_of_pos h2 (-1.200)
  have e3 := Real.rpow_pos_of_pos (show (0:ℝ) < 0.9938 by norm_num) x
  exact (mul_pos (mul_pos (mul_pos (mul_pos (by norm_num : (0:ℝ) < 142) e1) e2) e3) hsf).le

/-! ### The claims -/

/-- C1: for every validated adult input (positive canonical creatinine),
calculateCKDEPI2021 returns 142 * min(Cr/kappa, 1)^alpha
* max(Cr/kappa, 1)^(-1.200) * 0.9938^age * sexFactor rounded to the nearest
integer with halves away from zero, with the female constants kappa 0.7,
alpha -0.241, sexFactor 1.012 and the male constants kappa 0.9,
alpha -0.302, sexFactor 1.0, and no race term. -/
theorem ckdepi2021_matches_spec (creatinine age : ℝ) (isFemale : Bool)
    (hc : 0 < creatinine) :
    calculateCKDEPI2021 creatinine age isFemale = specCKDEPI2021 creatinine age isFemale := by
  cases isFemale
  · simp only [calculateCKDEPI2021, specCKDEPI2021, ckdEpiConstants, ckdEpiFemale, ckdEpiMale,
      Bool.false_eq_true, if_false]
    rw [roundHalfAwayFromZero_eq_jsRound]
    exact ckdepiValue_nonneg creatinine age 0.9 (-0.302) 1.0 hc (by norm_num) (by norm_num)
  · simp only [calculateCKDEPI2021, specCKDEPI2021, ckdEpiConstants, ckdEpiFemale, ckdEpiMale,
      if_true]
    rw [roundHalfAwayFromZero_eq_jsRound]
    exact ckdepiValue_nonneg creatinine age 0.7 (-0.241) 1.012 hc (by norm_num) (by norm_num)

theorem ckdepi2021_matches_spec_witness :
    calculateCKDEPI2021 1 70 false = specCKDEPI2021 1 70 false :=
  ckdepi2021_matches_spec 1 70 false one_pos

/-- C2: getCKDStage is a total step function of the integer eGFR that agrees
with the spec's band table in stage code and risk tier on every integer,
with 90 in G1, 89 in G2, 15 in G4, 14 in G5, and zero and negative values in
G5 by the same rule. -/
theorem getCKDStage_matches_bands :
    (∀ e : ℤ, ((getCKDStage e).stage, (getCKDStage e).risk) = classifySpec e)
    ∧ (getCKDStage 90).stage = StageCode.G1
    ∧ (getCKDStage 89).stage = StageCode.G2
    ∧ (getCKDStage 15).stage = StageCode.G4
    ∧ (getCKDStage 14).stage = StageCode.G5
    ∧ (getCKDStage 0).stage = StageCode.G5
    ∧ (getCKDStage (-50)).stage = StageCode.G5 := by
  refine ⟨?_, by decide, by decide, by decide, by decide, by decide, by decide⟩
  intro e
  unfold getCKDStage classifySpec
  split_ifs <;> first | rfl | (exfalso; omega)

/-- C3: calculateSchwartz2009 returns (0.413 * height) / creatinine rounded
to the nearest integer with halves away from zero on positive inputs, and
the boundary scenario height 120 cm, creatinine 0.5 mg/dL gives 99, whose
stage is G1. -/
theorem schwartz2009_matches_spec :
    (∀ creatinine height : ℚ, 0 < creatinine → 0 < height →
        calculateSchwartz2009 creatinine height = specSchwartz2009 creatinine height)
    ∧ calculateSchwartz2009 (1/2) 120 = 99
    ∧ (getCKDStage 99).stage = StageCode.G1 := by
  refine ⟨?_, ?_, by decide⟩
  · intro cr h hc hh
    unfold calculateSchwartz2009 specSchwartz2009 SCHWARTZ_2009_constant
    rw [roundHalfAwayFromZero_eq_jsRound]
    positivity
  · unfold calculateSchwartz2009 SCHWARTZ_2009_constant jsRound
    norm_num

/-- C6: on a parsed creatinine value, validateCreatinine fails exactly when
the value is nonpositive, or exceeds 20 under mg/dL, or exceeds 1768 under
µmol/L; 25 mg/dL is rejected while 25 µmol/L passes. -/
theorem validateCreatinine_characterization :
    (∀ (v : ℚ) (u : CreatUnit),
        (validateCreatinine (RawField.num v) u).isSome = true ↔
          (v ≤ 0 ∨ (u = CreatUnit.mgdL ∧ 20 < v) ∨ (u = CreatUnit.umolL ∧ 1768 < v)))
    ∧ (validateCreatinine (RawField.num 25) CreatUnit.mgdL).isSome = true
    ∧ validateCreatinine (RawField.num 25) CreatUnit.umolL = none := by
  refine ⟨?_, ?_, ?_⟩
  · intro v u
    cases u <;> simp [validateCreatinine, parseField] <;> split_ifs <;> simp_all
  · simp [validateCreatinine, parseField]
    norm_num
  · simp [validateCreatinine, parseField]
    norm_num

/-- C8: convertCreatinine divides a parsed value by 88.4 exactly under
µmol/L and returns it unchanged under mg/dL; the equalities are exact over
the rationals, so no rounding touches the converted creatinine. -/
theorem convertCreatinine_exact :
    (∀ x : ℚ, convertCreatinine (RawField.num x) CreatUnit.umolL = some (x / 88.4))
    ∧ (∀ x : ℚ, convertCreatinine (RawField.num x) CreatUnit.mgdL = some x) :=
  ⟨fun _ => rfl, fun _ => rfl⟩

/-- C10: the two copies of the engine in App.js agree extensionally on every
calculation-relevant function, and their stage tables agree in stage code,
label and risk tier, differing only in the color token (shown at eGFR 95:
a Tailwind class in the first copy, a hex value in the second). -/
theorem engine_copies_extensionally_equal :
    (∀ v, validateAge v = Copy2.validateAge v) ∧
    (∀ v u, validateCreatinine v u = Copy2.validateCreatinine v u) ∧
    (∀ v, validateHeight v = Copy2.validateHeight v) ∧
    (∀ v u, convertCreatinine v u = Copy2.convertCreatinine v u) ∧
    (∀ (c a : ℝ) (s : Bool), calculateCKDEPI2021 c a s = Copy2.calculateCKDEPI2021 c a s) ∧
    (∀ c h : ℚ, calculateSchwartz2009 c h = Copy2.calculateSchwartz2009 c h) ∧
    (∀ e : ℤ, (getCKDStage e).stage = (Copy2.getCKDStage e).stage ∧
        (getCKDStage e).label = (Copy2.getCKDStage e).label ∧
        (getCKDStage e).risk = (Copy2.getCKDStage e).risk) ∧
    (getCKDStage 95).color = "bg-green-500" ∧ (Copy2.getCKDStage 95).color = "#10b981" := by
  refine ⟨fun v => rfl, fun v u => rfl, fun v => rfl, fun v u => rfl,
    fun c a s => by cases s <;> rfl, fun c h => rfl, ?_, by decide, by decide⟩
  intro e
  unfold getCKDStage Copy2.getCKDStage
  split_ifs <;> exact ⟨rfl, rfl, rfl⟩

/-! ### Concrete forms -/

/-- A form with every field still empty. -/
def emptyForm : FormData :=
  ⟨RawField.empty, SexField.unset, RawField.empty, CreatUnit.mgdL, RawField.empty⟩

/-- An adult male form: age 30, creatinine 1 mg/dL, no height. -/
def adultForm : FormData :=
  ⟨RawField.num 30, SexField.male, RawField.num 1, CreatUnit.mgdL, RawField.empty⟩

/-- A pediatric form: age 10, creatinine 1 mg/dL, height 120 cm. -/
def pediatricForm : FormData :=
  ⟨RawField.num 10, SexField.male, RawField.num 1, CreatUnit.mgdL, RawField.num 120⟩

/-- C4 is false as stated on the code: on the fully empty form the engine
reports zero validation failures and still performs no calculation, so its
output is neither a non-empty failure map nor a complete result. -/
theorem facade_not_all_or_nothing :
    hasErrors (computeErrors emptyForm) = false ∧ calculate emptyForm = none := by
  constructor
  · decide
  · have h : isFormValid emptyForm = false := by decide
    simp [calculate, h]

/-- C4 (amended): for every input in which all required fields are provided
(age, sex and creatinine non-empty, and height non-empty on the pediatric
path), the engine is all-or-nothing: either the validation effect reports at
least one failure and calculate returns no result, or it reports zero
failures and calculate returns a complete result. -/
theorem facade_all_or_nothing (f : FormData)
    (hage : fieldTruthy f.age = true) (hsex : f.sex ≠ SexField.unset)
    (hcr : fieldTruthy f.creatinine = true)
    (hht : isPediatric f = true → fieldTruthy f.height = true) :
    (hasErrors (computeErrors f) = true ∧ calculate f = none) ∨
    (hasErrors (computeErrors f) = false ∧ ∃ r, calculate f = some r) := by
  by_cases he : hasErrors (computeErrors f) = true
  · left
    refine ⟨he, ?_⟩
    have hnv : isFormValid f = false := by simp [isFormValid, he]
    simp [calculate, hnv]
  · right
    have he' : hasErrors (computeErrors f) = false := by simpa using he
    have hped : (!isPediatric f || fieldTruthy f.height) = true := by
      by_cases hp : isPediatric f = true
      · simp [hp, hht hp]
      · have hp' : isPediatric f = false := by simpa using hp
        simp [hp']
    have hv : isFormValid f = true := by
      simp [isFormValid, hage, hcr, he', hsex, hped]
    obtain ⟨a, c, -, -, -, hcase⟩ := calculate_cases f hv
    rcases hcase with ⟨-, hr⟩ | ⟨-, ht, -, hr⟩
    · exact ⟨he', _, hr⟩
    · exact ⟨he', _, hr⟩

theorem facade_all_or_nothing_witness :
    (hasErrors (computeErrors adultForm) = true ∧ calculate adultForm = none) ∨
    (hasErrors (computeErrors adultForm) = false ∧ ∃ r, calculate adultForm = some r) :=
  facade_all_or_nothing adultForm (by decide) (by decide) (by decide) (by decide)

/-- C5 is false on the code: each validator reports a failure, not "no
error", on non-empty text that does not parse as a number (parseFloat NaN
falls into the isNaN branch of every validator). -/
theorem validators_reject_malformed_cex :
    validateAge RawField.malformed = some "Age must be ≥ 1 year" ∧
    validateCreatinine RawField.malformed CreatUnit.mgdL = some "Creatinine must be > 0" ∧
    validateHeight RawField.malformed = some "Height must be between 30-250 cm" :=
  ⟨rfl, rfl, rfl⟩

/-- C5 (amended): for raw values that do not parse as a number each
validator returns a failure, reusing its lower-bound message; only empty
fields are treated as "not yet provided", because the caller's validation
effect skips the validators of empty fields; and out-of-range parsed
numbers are reported as failures as well (age below 1 or above 120,
creatinine nonpositive or above the unit-specific threshold, height outside
30-250 cm). -/
theorem validators_malformed_amended :
    (∀ v, parseField v = none →
      validateAge v = some "Age must be ≥ 1 year" ∧
      (∀ u, validateCreatinine v u = some "Creatinine must be > 0") ∧
      validateHeight v = some "Height must be between 30-250 cm") ∧
    (∀ f : FormData, f.age = RawField.empty → (computeErrors f).age = none) ∧
    (∀ f : FormData, f.creatinine = RawField.empty → (computeErrors f).creatinine = none) ∧
    (∀ f : FormData, f.height = RawField.empty → (computeErrors f).height = none) ∧
    (∀ q : ℚ, q < 1 → validateAge (RawField.num q) = some "Age must be ≥ 1 year") ∧
    (∀ q : ℚ, q > 120 → validateAge (RawField.num q) = some "Please verify age > 120 years") ∧
    (∀ (q : ℚ) (u : CreatUnit), q ≤ 0 →
      validateCreatinine (RawField.num q) u = some "Creatinine must be > 0") ∧
    (∀ q : ℚ, q > 20 →
      validateCreatinine (RawField.num q) CreatUnit.mgdL
        = some "Please verify creatinine > 20 mg/dL") ∧
    (∀ q : ℚ, q > 1768 →
      validateCreatinine (RawField.num q) CreatUnit.umolL
        = some "Please verify creatinine > 1768 µmol/L") ∧
    (∀ q : ℚ, q < 30 ∨ q > 250 →
      validateHeight (RawField.num q) = some "Height must be between 30-250 cm") := by
  refine ⟨?_, ?_, ?_, ?_, ?_, ?_, ?_, ?_, ?_, ?_⟩
  · intro v hm
    cases v with
    | empty => exact ⟨rfl, fun _ => rfl, rfl⟩
    | malformed => exact ⟨rfl, fun _ => rfl, rfl⟩
    | num q => simp [parseField] at hm
  · intro f h
    simp [computeErrors, h, fieldTruthy]
  · intro f h
    simp [computeErrors, h, fieldTruthy]
  · intro f h
    simp [computeErrors, h, fieldTruthy]
  · intro q hq
    simp [validateAge, parseField, hq]
  · intro q hq
    have h1 : ¬(q < 1) := by linarith
    simp [validateAge, parseField, h1, hq]
  · intro q u hq
    simp [validateCreatinine, parseField, hq]
  · intro q hq
    have h0 : ¬(q ≤ 0) := by linarith
    simp [validateCreatinine, parseField, h0, hq]
  · intro q hq
    have h0 : ¬(q ≤ 0) := by linarith
    simp [validateCreatinine, parseField, h0, hq]
  · intro q hq
    simp [validateHeight, parseField, hq]

/-- C7: formula selection is determined solely by the parsed age with
threshold 18: on every valid form an age of 18 or more selects the adult
CKD-EPI 2021 formula, and a lower age selects the pediatric Schwartz 2009
formula. -/
theorem formula_selected_by_age (f : FormData) (a : ℚ)
    (hv : isFormValid f = true) (ha : parseField f.age = some a) :
    (18 ≤ a → (calculate f).map CalcResult.formulaUsed = some "CKD-EPI 2021") ∧
    (a < 18 → (calculate f).map CalcResult.formulaUsed = some "Bedside Schwartz 2009") := by
  obtain ⟨b, c, hb, -, -, hcase⟩ := calculate_cases f hv
  rw [ha] at hb
  obtain rfl : a = b := Option.some.inj hb
  constructor
  · intro h18
    rcases hcase with ⟨-, hr⟩ | ⟨hlt, -⟩
    · simp [hr]
    · linarith
  · intro hlt
    rcases hcase with ⟨h18, -⟩ | ⟨-, ht, -, hr⟩
    · linarith
    · simp [hr]

theorem formula_selected_by_age_witness :
    (18 ≤ (10:ℚ) → (calculate pediatricForm).map CalcResult.formulaUsed = some "CKD-EPI 2021") ∧
    ((10:ℚ) < 18 →
      (calculate pediatricForm).map CalcResult.formulaUsed = some "Bedside Schwartz 2009") :=
  formula_selected_by_age pediatricForm 10 (by decide) rfl

/-- C9: on the pediatric path of a valid form, the creatinine that reaches
calculateSchwartz2009 has passed validateCreatinine and the unit conversion,
and is strictly positive, so the division in the Schwartz formula never
divides by zero. -/
theorem schwartz_receives_positive_creatinine (f : FormData)
    (hv : isFormValid f = true) (hped : isPediatric f = true) :
    ∃ c ht, convertCreatinine f.creatinine f.creatinineUnit = some c ∧ 0 < c ∧
      parseField f.height = some ht ∧
      calculate f = some ⟨calculateSchwartz2009 c ht, "Bedside Schwartz 2009",
        getCKDStage (calculateSchwartz2009 c ht)⟩ := by
  obtain ⟨a, c, ha, hconv, hcpos, hcase⟩ := calculate_cases f hv
  have halt : a < 18 := age_lt_of_pediatric f a ha hped
  rcases hcase with ⟨h18, -⟩ | ⟨-, ht, hparse, hr⟩
  · linarith
  · exact ⟨c, ht, hconv, hcpos, hparse, hr⟩

theorem schwartz_receives_positive_creatinine_witness :
    ∃ c ht, convertCreatinine pediatricForm.creatinine pediatricForm.creatinineUnit = some c ∧
      0 < c ∧ parseField pediatricForm.height = some ht ∧
      calculate pediatricForm = some ⟨calculateSchwartz2009 c ht, "Bedside Schwartz 2009",
        getCKDStage (calculateSchwartz2009 c ht)⟩ :=
  schwartz_receives_positive_creatinine pediatricForm (by decide) (by decide)

end EGFR
